import Mathlib

set_option maxRecDepth 8000

/-
Formal model of the layer-aware Clean Architecture validators:
  src/skills/clean-architecture/languages/python/validators/validate_imports.py
  src/skills/clean-architecture/languages/python/validators/validate_structure.py

Conventions of the embedding:
- A Python dotted module path (produced by import_path.split(".")) and a
  filesystem path's parts (pathlib.Path.parts) are represented as List String
  of their segments; the str(path) text used by substring guards and by
  messages is carried separately as a String.
- Python sets (the import set of _extract_imports, the class-name set of
  _get_class_names) are represented as duplicate-free lists (List.dedup);
  every property proved about them is independent of iteration order.
- Reported issues are represented structurally (the data interpolated into
  the Python message strings), not as formatted text.
- Python string methods are modelled for the ASCII range, which covers every
  name the validators compare.
-/

/-- Tests whether the first character list is an initial run of the second. -/
def leadMatch : List Char → List Char → Bool
  | [], _ => true
  | _ :: _, [] => false
  | a :: as, b :: bs => a == b && leadMatch as bs

/-- Tests whether p occurs as a contiguous run inside the second list. -/
def hasSubList (p : List Char) : List Char → Bool
  | [] => leadMatch p []
  | c :: rest => leadMatch p (c :: rest) || hasSubList p rest

/-- Python substring containment, pat in s. -/
def strContains (s pat : String) : Bool := hasSubList pat.data s.data

/-- Python str.startswith. -/
def strStarts (s p : String) : Bool := leadMatch p.data s.data

/-- Python str.endswith. -/
def strEnds (s p : String) : Bool := leadMatch p.data.reverse s.data.reverse

/-- Python str.lower on the ASCII range. -/
def lowerStr (s : String) : String := ⟨s.data.map Char.toLower⟩

/-- Python str.upper on the ASCII range. -/
def upperStr (s : String) : String := ⟨s.data.map Char.toUpper⟩

/-- Python str.isupper on the ASCII range: at least one cased character and no
lowercase character. -/
def pyIsUpper (s : String) : Bool :=
  s.data.any (fun c => c.isUpper || c.isLower) && s.data.all (fun c => !(c.isLower))

/-- Helper for Python str.replace with a non-empty pattern: replaces each
non-overlapping left-to-right occurrence of p by r; the Nat argument is fuel,
instantiated with the length of the subject so that the recursion is
structural. -/
def replaceAllAux (p r : List Char) : Nat → List Char → List Char
  | _, [] => []
  | 0, s => s
  | fuel + 1, c :: rest =>
    if leadMatch p (c :: rest) then r ++ replaceAllAux p r fuel (List.drop (p.length - 1) rest)
    else c :: replaceAllAux p r fuel rest

/-- Python str.replace for a non-empty pattern (the validators only replace
the literal "UseCase"). -/
def replaceAll (s p r : String) : String := ⟨replaceAllAux p.data r.data s.data.length s.data⟩

/-
ImportValidator (validate_imports.py).
-/

/-- ImportValidator.LAYERS: the layer vocabulary with synonym aliases, in the
insertion order of the Python dict. -/
def LAYERS : List (String × Nat) :=
  [("domain", 0), ("application", 1), ("infrastructure", 2), ("frameworks", 3),
   ("framework", 3), ("adapters", 2), ("use_cases", 1), ("entities", 0)]

/-- Association lookup on the vocabulary (Python dict membership/indexing). -/
def layersFind : List (String × Nat) → String → Option Nat
  | [], _ => none
  | (n, r) :: rest, key => if key == n then some r else layersFind rest key

/-- Rank of one path or module segment: the dict access self.LAYERS[part.lower()],
or none when part.lower() is not a key. -/
def layerRank (seg : String) : Option Nat := layersFind LAYERS (lowerStr seg)

/-- ImportValidator._get_layer: rank of the first path segment whose lowering is
in the vocabulary, none when no segment matches. -/
def getLayer : List String → Option Nat
  | [] => none
  | p :: rest =>
    match layerRank p with
    | some r => some r
    | none => getLayer rest

/-- ImportValidator._is_project_import: tests the first dotted segment of
the module path against the vocabulary. A dotted path split on "." always
has at least one segment, so the empty list is unreachable. -/
def isProjectImport (importParts : List String) : Bool :=
  match importParts with
  | [] => false
  | p :: _ => (layerRank p).isSome

/-- ImportValidator._get_import_layer: the source duplicates the loop of
_get_layer over the dotted segments of the import path. -/
def getImportLayer (importParts : List String) : Option Nat := getLayer importParts

/-- The four canonical layer names tested by ImportValidator._get_layer_name. -/
def primaryLayerNames : List String := ["domain", "application", "infrastructure", "frameworks"]

/-- ImportValidator._get_layer_name: first vocabulary entry with the given rank
whose name is canonical; otherwise the fallback text. -/
def getLayerName (layerIndex : Nat) : String :=
  match LAYERS.find? (fun p => p.2 == layerIndex && primaryLayerNames.contains p.1) with
  | some p => p.1
  | none => "Layer " ++ toString layerIndex

/-- A dependency-rule violation: the tuple (relative file path, file layer
name, referenced layer name) appended by ImportValidator._check_import. -/
structure Violation where
  filePath : String
  fromLayer : String
  toLayer : String
deriving DecidableEq, Repr

/-- ImportValidator._check_import: skip non-project imports, then report iff
the imported layer rank is strictly greater than the file layer rank. -/
def checkImport (relPath : String) (fileLayer : Nat) (importParts : List String) : Option Violation :=
  if isProjectImport importParts then
    match getImportLayer importParts with
    | none => none
    | some importLayer =>
      if fileLayer < importLayer then
        some ⟨relPath, getLayerName fileLayer, getLayerName importLayer⟩
      else none
  else none

/-- ImportValidator._extract_imports returns a Python set of the module paths of
all Import/ImportFrom nodes; modelled as a duplicate-free list of the extracted
dotted paths. -/
def extractImports (refs : List (List String)) : List (List String) := refs.dedup

/-- ImportValidator._validate_file: skip __pycache__ and test paths, skip files
that fail to parse (the except branch only prints a warning), skip files in no
recognized layer, then check each extracted import. -/
def ivValidateFile (pathStr relPath : String) (relParts : List String)
    (parseOk : Bool) (refs : List (List String)) : List Violation :=
  if strContains pathStr "__pycache__" || strContains pathStr "test" then []
  else if parseOk = false then []
  else
    match getLayer relParts with
    | none => []
    | some fileLayer => (extractImports refs).filterMap (checkImport relPath fileLayer)

/-
LayerStructureValidator (validate_imports.py) and the entry point main.
-/

/-- A structure warning from LayerStructureValidator._check_layer_contents:
the layer and the suspicious subdirectory interpolated into the message. -/
structure StructIssue where
  layerName : String
  subdir : String
deriving DecidableEq, Repr

/-- Suspicious subdirectory names for the domain layer. -/
def domainSuspicious : List String := ["controllers", "routers", "api", "database", "orm"]

/-- Suspicious subdirectory names for the application layer. -/
def applicationSuspicious : List String := ["models", "database", "orm", "api", "controllers"]

/-- LayerStructureValidator._check_layer_contents: subdirectories of an existing
layer directory (dunder-style names filtered out) matched, lowercased, against
the suspicious list of that layer; only domain and application have checks. -/
def checkLayerContents (layerName : String) (subdirNames : List String) : List StructIssue :=
  let subdirs := subdirNames.filter (fun d => !(strStarts d "__"))
  if layerName == "domain" then
    (subdirs.filter (fun d => domainSuspicious.contains (lowerStr d))).map
      (fun d => ⟨layerName, d⟩)
  else if layerName == "application" then
    (subdirs.filter (fun d => applicationSuspicious.contains (lowerStr d))).map
      (fun d => ⟨layerName, d⟩)
  else []

/-- LayerStructureValidator.validate: for each of the four canonical layer
directories that exists under the root, check its contents. The argument lists
the existing layer directories with their subdirectory names. -/
def layerStructureValidate (dirs : List (String × List String)) : List StructIssue :=
  primaryLayerNames.flatMap
    (fun ln =>
      match dirs.lookup ln with
      | none => []
      | some subs => checkLayerContents ln subs)

/-- One discovered source file as the import validator sees it: str(path), its
path relative to the root (text and parts), whether ast.parse succeeds, and
the dotted module paths of its import statements in walk order. -/
structure IVFile where
  pathStr : String
  relPath : String
  relParts : List String
  parseOk : Bool
  importRefs : List (List String)

/-- ImportValidator.validate: accumulate the violations of every discovered
file, in file discovery order. -/
def ivRun (files : List IVFile) : List Violation :=
  files.flatMap (fun f => ivValidateFile f.pathStr f.relPath f.relParts f.parseOk f.importRefs)

/-- main of validate_imports.py: exit 1 when the chosen root path does not
exist; otherwise exit 0 iff the import validator and the layer structure
validator both report nothing. (The no-argument fallback loop always finds
"." and so never takes its own error exit.) -/
def mainExit (rootExists : Bool) (files : List IVFile) (dirs : List (String × List String)) : Nat :=
  if rootExists = false then 1
  else if (ivRun files).isEmpty && (layerStructureValidate dirs).isEmpty then 0 else 1

/-
NamingConventionValidator (validate_structure.py).
-/

/-- Naming regex of _is_pascal_case: one ASCII uppercase letter then ASCII
alphanumerics. -/
def isPascalCase (name : String) : Bool :=
  match name.data with
  | [] => false
  | c :: rest => c.isUpper && rest.all (fun d => d.isUpper || d.isLower || d.isDigit)

/-- Naming regex of _is_snake_case: a lowercase letter or underscore, then
lowercase letters, digits or underscores. -/
def isSnakeCase (name : String) : Bool :=
  match name.data with
  | [] => false
  | c :: rest => (c.isLower || c == '_') && rest.all (fun d => d.isLower || d.isDigit || d == '_')

/-- Naming regex of _is_upper_snake_case: an uppercase letter, then uppercase
letters, digits or underscores. -/
def isUpperSnakeCase (name : String) : Bool :=
  match name.data with
  | [] => false
  | c :: rest => c.isUpper && rest.all (fun d => d.isUpper || d.isDigit || d == '_')

/-- A naming issue: the file, the kind of declaration and the offending name
interpolated into the message. -/
structure NIssue where
  pathStr : String
  kind : String
  name : String
deriving DecidableEq, Repr

/-- NamingConventionValidator._check_classes over the names of all ClassDef
nodes in walk order. -/
def nvCheckClasses (pathStr : String) (classNames : List String) : List NIssue :=
  classNames.filterMap
    (fun n => if !(isPascalCase n) then some ⟨pathStr, "class", n⟩ else none)

/-- NamingConventionValidator._check_functions over the names of all
FunctionDef nodes in walk order; dunder-style names are exempt. -/
def nvCheckFunctions (pathStr : String) (funcNames : List String) : List NIssue :=
  funcNames.filterMap
    (fun n =>
      if strStarts n "__" && strEnds n "__" then none
      else if !(isSnakeCase n) then some ⟨pathStr, "function", n⟩ else none)

/-- NamingConventionValidator._check_constants over the Name targets of all
Assign nodes in walk order: names that look like constants (isupper and an
underscore) must satisfy the strict upper-snake regex. -/
def nvCheckConstants (pathStr : String) (assignNames : List String) : List NIssue :=
  assignNames.filterMap
    (fun n =>
      if pyIsUpper n && strContains n "_" then
        if !(isUpperSnakeCase n) then some ⟨pathStr, "constant", n⟩ else none
      else none)

/-- NamingConventionValidator.validate_file: skip test paths, silently skip
files that fail to parse, then run the three checks in order. -/
def nvValidateFile (pathStr : String) (parseOk : Bool)
    (classNames funcNames assignNames : List String) : List NIssue :=
  if strContains pathStr "test" then []
  else if parseOk = false then []
  else nvCheckClasses pathStr classNames ++ nvCheckFunctions pathStr funcNames
    ++ nvCheckConstants pathStr assignNames

/-
EncapsulationValidator (validate_structure.py).
-/

/-- A decorator or base-class expression as the encapsulation checks inspect
it: a bare Name, a Call whose func is a Name (carrying that name), or any
other expression shape. -/
inductive PyExpr where
  | name (s : String)
  | call (funcName : String)
  | other
deriving DecidableEq, Repr

/-- A FunctionDef as the encapsulation checks inspect it: its name, its
decorator list, and the attr of every Attribute target of every Assign node
inside the function body (ast.walk order). -/
structure PyFuncDef where
  name : String
  decorators : List PyExpr
  assignAttrTargets : List String
deriving DecidableEq, Repr

/-- One statement of a class body: an AnnAssign whose target is a Name
(carrying the attribute name), a FunctionDef, or any other statement. -/
inductive PyClassItem where
  | annAssignName (attrName : String)
  | funcDef (f : PyFuncDef)
  | other
deriving DecidableEq, Repr

/-- A ClassDef as the checkers inspect it. -/
structure PyClassDef where
  name : String
  bases : List PyExpr
  decorators : List PyExpr
  body : List PyClassItem
deriving DecidableEq, Repr

/-- EncapsulationValidator._is_protocol_or_dataclass: a Name base Protocol or
BaseModel, or a dataclass decorator (bare Name or Call of a Name). -/
def isProtocolOrDataclass (c : PyClassDef) : Bool :=
  c.bases.any
    (fun b =>
      match b with
      | .name s => s == "Protocol" || s == "BaseModel"
      | _ => false)
  || c.decorators.any
    (fun d =>
      match d with
      | .name s => s == "dataclass"
      | .call f => f == "dataclass"
      | _ => false)

/-- An encapsulation issue: a public annotated attribute of a class, or a
class with private attributes but no property accessors. -/
inductive EIssue where
  | publicAttr (pathStr className attrName : String)
  | missingProperty (pathStr className : String)
deriving DecidableEq, Repr

/-- The public-attribute issues of one class in _check_public_attributes:
none when the class is exempt, otherwise one issue per AnnAssign Name target
with no underscore in front that is not all-uppercase. -/
def encPublicAttrsForClass (pathStr : String) (c : PyClassDef) : List EIssue :=
  if isProtocolOrDataclass c then []
  else
    c.body.filterMap
      (fun item =>
        match item with
        | .annAssignName attrName =>
          if !(strStarts attrName "_") && !(attrName == upperStr attrName) then
            some (.publicAttr pathStr c.name attrName)
          else none
        | _ => none)

/-- EncapsulationValidator._check_public_attributes over all ClassDef nodes
in walk order. -/
def encCheckPublicAttributes (pathStr : String) (classes : List PyClassDef) : List EIssue :=
  classes.flatMap (encPublicAttrsForClass pathStr)

/-- Whether some FunctionDef named i-n-i-t dunder in the class body assigns to
an Attribute whose attr has an underscore in front (_check_property_usage,
first inner loop). -/
def hasPrivateAttrs (c : PyClassDef) : Bool :=
  c.body.any
    (fun item =>
      match item with
      | .funcDef f => f.name == "__init__" && f.assignAttrTargets.any (fun a => strStarts a "_")
      | _ => false)

/-- Whether some FunctionDef in the class body carries a bare Name decorator
called property (_check_property_usage, second inner loop). -/
def hasPropertyDecorator (c : PyClassDef) : Bool :=
  c.body.any
    (fun item =>
      match item with
      | .funcDef f =>
        f.decorators.any
          (fun d =>
            match d with
            | .name s => s == "property"
            | _ => false)
      | _ => false)

/-- The expression file_path.lower() in _check_property_usage: pathlib.Path
objects have no method lower, so evaluating the condition raises
AttributeError; the access never yields a string. -/
def pathLowerAttr (pathStr : String) : Option String := none

/-- EncapsulationValidator._check_property_usage: walks the classes in order,
appending an issue for a class with private attributes, no properties and a
path containing the entity token. Reaching the path test raises AttributeError
(pathlib.Path has no lower), modelled as Except.error carrying the issues
appended before the abort; those appends persist in self.issues. -/
def encCheckPropertyUsage (pathStr : String) : List PyClassDef → Except (List EIssue) (List EIssue)
  | [] => .ok []
  | c :: rest =>
    if hasPrivateAttrs c && !(hasPropertyDecorator c) then
      match pathLowerAttr pathStr with
      | none => .error []
      | some lowered =>
        if strContains lowered "entity" then
          match encCheckPropertyUsage pathStr rest with
          | .ok l => .ok (.missingProperty pathStr c.name :: l)
          | .error l => .error (.missingProperty pathStr c.name :: l)
        else encCheckPropertyUsage pathStr rest
    else encCheckPropertyUsage pathStr rest

/-- The issues self.issues retains from _check_property_usage: on an
AttributeError the appends made before the abort persist, and validate_file
swallows the exception. -/
def encIssuesOf (x : Except (List EIssue) (List EIssue)) : List EIssue :=
  match x with
  | .ok l => l
  | .error l => l

/-- EncapsulationValidator.validate_file: only paths containing domain or
application, skip test paths, silently skip files that fail to parse, then the
public-attribute check completes and the property-usage check runs until its
AttributeError is swallowed. -/
def encValidateFile (pathStr : String) (parseOk : Bool) (classes : List PyClassDef) : List EIssue :=
  if !(strContains pathStr "domain") && !(strContains pathStr "application") then []
  else if strContains pathStr "test" then []
  else if parseOk = false then []
  else encCheckPublicAttributes pathStr classes
    ++ encIssuesOf (encCheckPropertyUsage pathStr classes)

/-
LayerContentValidator (validate_structure.py).
-/

/-- The layer names recognized by LayerContentValidator._get_layer. -/
def lcRecognized : List String :=
  ["domain", "application", "infrastructure", "frameworks", "framework"]

/-- LayerContentValidator._get_layer: the first path segment (over the full
path parts) whose lowering is a recognized layer name, with framework folded
into frameworks; none when no segment matches. The synonym aliases of
the ImportValidator vocabulary (entities, use_cases, adapters) are not
recognized here. -/
def lcGetLayer : List String → Option String
  | [] => none
  | p :: rest =>
    if lcRecognized.contains (lowerStr p) then
      some (if lowerStr p == "framework" then "frameworks" else lowerStr p)
    else lcGetLayer rest

/-- The forbidden token list of LayerContentValidator.PATTERNS for each layer;
the allowed lists of PATTERNS are never consulted by validate_file. Every
pattern is a literal, so re.search is substring containment. -/
def lcForbidden (layer : String) : List String :=
  if layer == "domain" then
    ["controller", "router", "endpoint", "api", "database", "sql", "orm", "http",
     "request", "response"]
  else if layer == "application" then
    ["controller", "router", "endpoint", "sql", "orm", "http"]
  else if layer == "infrastructure" then
    ["use_case", "usecase", "entity", "value_object"]
  else []

/-- A layer-content issue: the path, the file name, the matched forbidden
pattern and the layer interpolated into the message. -/
structure LCIssue where
  pathStr : String
  fileName : String
  pattern : String
  layer : String
deriving DecidableEq, Repr

/-- LayerContentValidator.validate_file: classify by path parts, lowercase the
stem, and report every forbidden pattern of the layer found in it. There is no
test-path skip and no parsing in this validator. -/
def lcValidateFile (parts : List String) (pathStr fileName stem : String) : List LCIssue :=
  match lcGetLayer parts with
  | none => []
  | some layer =>
    (lcForbidden layer).filterMap
      (fun pat =>
        if strContains (lowerStr stem) pat then some ⟨pathStr, fileName, pat, layer⟩
        else none)

/-
UseCaseStructureValidator (validate_structure.py).
-/

/-- A use-case triad issue: the path, the use-case class and the missing
companion class interpolated into the message. -/
structure UCIssue where
  pathStr : String
  useCaseName : String
  missingName : String
deriving DecidableEq, Repr

/-- UseCaseStructureValidator._get_class_names returns a Python set of the
names of all ClassDef nodes; modelled as a duplicate-free list. -/
def ucGetClassNames (declaredClasses : List String) : List String := declaredClasses.dedup

/-- UseCaseStructureValidator._check_use_case_pattern: for every class name
containing UseCase, derive the companion names by replacing that substring and
report each companion absent from the class-name set (Request first). -/
def ucCheckUseCasePattern (pathStr : String) (classes : List String) : List UCIssue :=
  (classes.filter (fun c => strContains c "UseCase")).flatMap
    (fun uc =>
      let base := replaceAll uc "UseCase" ""
      let req := base ++ "Request"
      let resp := base ++ "Response"
      (if !(classes.contains req) then [⟨pathStr, uc, req⟩] else [])
        ++ (if !(classes.contains resp) then [⟨pathStr, uc, resp⟩] else []))

/-- UseCaseStructureValidator.validate_file: only files whose str(path)
contains application and whose lowered stem contains the use-case marker,
skip test paths, silently skip files that fail to parse, then check the
declared class names. -/
def ucValidateFile (pathStr stem : String) (parseOk : Bool)
    (declaredClasses : List String) : List UCIssue :=
  if !(strContains pathStr "application") || !(strContains (lowerStr stem) "use_case") then []
  else if strContains pathStr "test" then []
  else if parseOk = false then []
  else ucCheckUseCasePattern pathStr (ucGetClassNames declaredClasses)

/-- The layer fields of a violation, i.e. the violation with its path text
stripped; used to compare violation sets up to path text. -/
def violationLayers (v : Violation) : String × String := (v.fromLayer, v.toLayer)

/-
Theorems. Helper lemmas first, then one theorem per claim.
-/

lemma layersFind_mem (l : List (String × Nat)) (key : String) (r : Nat)
    (h : layersFind l key = some r) : ∃ n, (n, r) ∈ l := by
  induction l with
  | nil => simp [layersFind] at h
  | cons a rest ih =>
    obtain ⟨n, rk⟩ := a
    unfold layersFind at h
    by_cases hk : key == n
    · simp [hk] at h
      exact ⟨n, by simp [h]⟩
    · simp [hk] at h
      obtain ⟨m, hm⟩ := ih h
      exact ⟨m, List.mem_cons_of_mem _ hm⟩

lemma layerRank_le_three (s : String) (r : Nat) (h : layerRank s = some r) : r ≤ 3 := by
  obtain ⟨n, hn⟩ := layersFind_mem LAYERS (lowerStr s) r h
  have hall : ∀ p ∈ LAYERS, p.2 ≤ 3 := by decide
  exact hall (n, r) hn

lemma getLayer_le_three (parts : List String) (r : Nat) (h : getLayer parts = some r) : r ≤ 3 := by
  induction parts with
  | nil => simp [getLayer] at h
  | cons p rest ih =>
    unfold getLayer at h
    cases hp : layerRank p with
    | some r0 =>
      rw [hp] at h
      simp at h
      exact h ▸ layerRank_le_three p r0 hp
    | none =>
      rw [hp] at h
      exact ih h

/-- C1: for a file classified into rank R and a project-internal import
reference resolving to rank Rp, both ranks lie in 0..3 and _check_import
yields a violation (at most one, it returns at most one tuple) exactly when
Rp exceeds R; references with Rp at most R produce none. -/
theorem dependency_rule_monotone (fileParts : List String) (R : Nat) (relPath : String)
    (importParts : List String) (Rp : Nat)
    (hfile : getLayer fileParts = some R)
    (hproj : isProjectImport importParts = true)
    (himp : getImportLayer importParts = some Rp) :
    R ≤ 3 ∧ Rp ≤ 3 ∧
    ((checkImport relPath R importParts).isSome = true ↔ R < Rp) ∧
    (Rp ≤ R → checkImport relPath R importParts = none) := by
  refine ⟨getLayer_le_three _ _ hfile, getLayer_le_three _ _ himp, ?_, ?_⟩
  · by_cases hlt : R < Rp <;> simp [checkImport, hproj, himp, hlt]
  · intro hle
    simp [checkImport, hproj, himp, Nat.not_lt.mpr hle]

/-- C1 witness: an application file (rank 1) importing infrastructure.db
(rank 2) is flagged, and an infrastructure file (rank 2) importing the same
module is not. -/
theorem dependency_rule_monotone_witness :
    (checkImport "application/use_cases/create_task.py" 1 ["infrastructure", "db"]).isSome = true ∧
    checkImport "infrastructure/db.py" 2 ["infrastructure", "db"] = none := by
  constructor
  · exact (dependency_rule_monotone ["application", "x.py"] 1
      "application/use_cases/create_task.py" ["infrastructure", "db"] 2
      (by decide) (by decide) (by decide)).2.2.1.mpr (by decide)
  · exact (dependency_rule_monotone ["adapters", "x.py"] 2
      "infrastructure/db.py" ["infrastructure", "db"] 2
      (by decide) (by decide) (by decide)).2.2.2 (by decide)

/-- C2 counterexample: the dotted segment infrastructure of myapp.infrastructure
matches the vocabulary (rank 2, outer than the domain file at rank 0), yet
_is_project_import rejects the reference because its first segment does not
match, so it is silently ignored — refuting that a reference is treated as
external if and only if no dotted segment matches. -/
theorem import_any_segment_counterexample :
    getImportLayer ["myapp", "infrastructure"] = some 2 ∧
    isProjectImport ["myapp", "infrastructure"] = false ∧
    checkImport "domain/task.py" 0 ["myapp", "infrastructure"] = none := by decide

/-- C2 amended: a reference is treated as external if and only if its FIRST
dotted segment does not match the vocabulary; when it is accepted as a
project module, its layer is the rank of its first segment; when rejected it
produces no violation for any file layer even if a later segment matches. -/
theorem import_classification_first_segment (s : String) (rest : List String) (relPath : String) :
    isProjectImport (s :: rest) = (layerRank s).isSome ∧
    (isProjectImport (s :: rest) = true → getImportLayer (s :: rest) = layerRank s) ∧
    (isProjectImport (s :: rest) = false →
      ∀ fileLayer, checkImport relPath fileLayer (s :: rest) = none) := by
  refine ⟨rfl, ?_, ?_⟩
  · intro h
    simp only [isProjectImport] at h
    obtain ⟨r, hr⟩ := Option.isSome_iff_exists.mp h
    simp [getImportLayer, getLayer, hr]
  · intro h fileLayer
    simp [checkImport, h]

/-- C2 amended witness: domain.entities is classified by its first segment
(rank 0), and myapp.domain is ignored for a domain file. -/
theorem import_classification_first_segment_witness :
    getImportLayer ["domain", "entities"] = layerRank "domain" ∧
    checkImport "domain/task.py" 0 ["myapp", "domain"] = none := by
  constructor
  · exact (import_classification_first_segment "domain" ["entities"] "domain/task.py").2.1
      (by decide)
  · exact (import_classification_first_segment "myapp" ["domain"] "domain/task.py").2.2
      (by decide) 0

lemma getLayer_entities_domain (pre post : List String) :
    getLayer (pre ++ "entities" :: post) = getLayer (pre ++ "domain" :: post) := by
  have h1 : layerRank "entities" = some 0 := by decide
  have h2 : layerRank "domain" = some 0 := by decide
  induction pre with
  | nil => simp [getLayer, h1, h2]
  | cons p ps ih =>
    simp only [List.cons_append, getLayer]
    cases hp : layerRank p <;> simp [hp, ih]

lemma checkImport_layers (rp rq : String) (fl : Nat) (parts : List String) :
    (checkImport rp fl parts).map violationLayers = (checkImport rq fl parts).map violationLayers := by
  unfold checkImport
  by_cases hp : isProjectImport parts
  · simp only [hp, if_true]
    cases him : getImportLayer parts with
    | none => rfl
    | some il =>
      by_cases hlt : fl < il
      · simp [hlt, violationLayers]
      · simp [hlt]
  · simp [hp]

/-- C3 counterexample: two files with identical (empty) content, one under a
domain segment and one under an entities segment, produce different
layer-content violation sets — the domain file is reported for the forbidden
token controller and the entities file is not classified at all — refuting
that every checker treats the two files identically up to path text. -/
theorem synonym_equivalence_counterexample :
    lcValidateFile ["domain", "task_controller.py"] "domain/task_controller.py"
        "task_controller.py" "task_controller" =
      [⟨"domain/task_controller.py", "task_controller.py", "controller", "domain"⟩] ∧
    lcValidateFile ["entities", "task_controller.py"] "entities/task_controller.py"
        "task_controller.py" "task_controller" = [] := by decide

/-- C3 amended: the Dependency Rule Checker honours the synonym — a file under
an entities segment and one under a domain segment with identical content are
classified identically and produce identical violation lists up to path text —
but the structure checkers do not: the layer-content classifier does not
recognize entities (only the five canonical spellings), and the encapsulation
checker gates on the literal substrings domain/application of the path, so a
file under entities is skipped or unclassified by them while its domain twin
is checked. -/
theorem synonym_equivalence_amended (pre post : List String) (ps1 ps2 rp1 rp2 : String)
    (ok : Bool) (refs : List (List String))
    (h1 : strContains ps1 "__pycache__" = false) (h2 : strContains ps1 "test" = false)
    (h3 : strContains ps2 "__pycache__" = false) (h4 : strContains ps2 "test" = false) :
    getLayer (pre ++ "entities" :: post) = getLayer (pre ++ "domain" :: post) ∧
    (ivValidateFile ps1 rp1 (pre ++ "entities" :: post) ok refs).map violationLayers =
      (ivValidateFile ps2 rp2 (pre ++ "domain" :: post) ok refs).map violationLayers ∧
    layerRank "entities" = some 0 ∧
    lcRecognized.contains (lowerStr "entities") = false ∧
    lcRecognized.contains (lowerStr "domain") = true ∧
    encValidateFile "entities/task.py" true
      [⟨"Task", [], [], [PyClassItem.annAssignName "value"]⟩] = [] ∧
    encValidateFile "domain/task.py" true
      [⟨"Task", [], [], [PyClassItem.annAssignName "value"]⟩] =
        [EIssue.publicAttr "domain/task.py" "Task" "value"] := by
  refine ⟨getLayer_entities_domain pre post, ?_, by decide, by decide, by decide, by decide,
    by decide⟩
  cases ok with
  | false => simp [ivValidateFile, h1, h2, h3, h4]
  | true =>
    have hgl := getLayer_entities_domain pre post
    simp only [ivValidateFile, h1, h2, h3, h4, hgl, Bool.or_self]
    cases hl : getLayer (pre ++ "domain" :: post) with
    | none => simp
    | some fl =>
      simp only [hl, Bool.false_eq_true, Bool.true_eq_false, if_false, List.map_filterMap]
      exact List.filterMap_congr (fun a _ => checkImport_layers rp1 rp2 fl a)

/-- C3 amended witness: concrete twin files entities/task.py and
domain/task.py, each importing infrastructure.db, yield the same violation
list up to path text. -/
theorem synonym_equivalence_amended_witness :
    (ivValidateFile "entities/task.py" "entities/task.py" ["entities", "task.py"] true
        [["infrastructure", "db"]]).map violationLayers =
      (ivValidateFile "domain/task.py" "domain/task.py" ["domain", "task.py"] true
        [["infrastructure", "db"]]).map violationLayers :=
  (synonym_equivalence_amended [] ["task.py"] "entities/task.py" "domain/task.py"
    "entities/task.py" "domain/task.py" true [["infrastructure", "db"]]
    (by decide) (by decide) (by decide) (by decide)).2.1

/-- C4 counterexample: the Use-Case Triad Checker emits no violation at all for
application/use_cases/delete_task.py declaring only DeleteTaskUseCase, because
the base name delete_task does not contain the marker token use_case and the
file is skipped before any class is examined — refuting the claimed two
violations. -/
theorem use_case_triad_counterexample :
    ucValidateFile "application/use_cases/delete_task.py" "delete_task" true
      ["DeleteTaskUseCase"] = [] := by decide

/-- C4 amended: the checker skips delete_task.py (base name without the
use_case marker, zero violations); for a file whose base name does contain the
marker, such as delete_task_use_case.py declaring only DeleteTaskUseCase, it
emits exactly the two violations for the missing DeleteTaskRequest and
DeleteTaskResponse classes. -/
theorem use_case_triad_amended :
    ucValidateFile "application/use_cases/delete_task.py" "delete_task" true
      ["DeleteTaskUseCase"] = [] ∧
    ucValidateFile "application/use_cases/delete_task_use_case.py" "delete_task_use_case" true
      ["DeleteTaskUseCase"] =
      [⟨"application/use_cases/delete_task_use_case.py", "DeleteTaskUseCase",
        "DeleteTaskRequest"⟩,
       ⟨"application/use_cases/delete_task_use_case.py", "DeleteTaskUseCase",
        "DeleteTaskResponse"⟩] := by decide

/-- C5: the exit status of main is 0 exactly when the root path exists and
both the import validator and the layer structure validator report nothing,
and 1 exactly otherwise. -/
theorem exit_status_iff (rootExists : Bool) (files : List IVFile)
    (dirs : List (String × List String)) :
    (mainExit rootExists files dirs = 0 ↔
      rootExists = true ∧ ivRun files = [] ∧ layerStructureValidate dirs = []) ∧
    (mainExit rootExists files dirs = 1 ↔
      ¬(rootExists = true ∧ ivRun files = [] ∧ layerStructureValidate dirs = [])) := by
  cases rootExists with
  | false => simp [mainExit]
  | true =>
    by_cases hv : ivRun files = [] <;> by_cases hs : layerStructureValidate dirs = [] <;>
      simp [mainExit, hv, hs, List.isEmpty_iff]

/-- C6 counterexample: a run over an existing root under which no candidate
source files are discoverable exits with status 0 — not a non-zero status as
when the root is missing — refuting that an empty discoverable set is fatal. -/
theorem empty_tree_counterexample : mainExit true [] [] = 0 := by decide

/-- C6 amended: a run over an existing root with no discoverable candidate
files terminates with exit status 0 (both checkers are vacuously clean); it is
not fatal and differs from a missing root, which always exits 1; in general,
with an existing root the exit status is 0 exactly when no violations or
issues were found. -/
theorem empty_tree_amended :
    mainExit true [] [] = 0 ∧
    (∀ (files : List IVFile) (dirs : List (String × List String)),
      mainExit false files dirs = 1) ∧
    (∀ (files : List IVFile) (dirs : List (String × List String)),
      mainExit true files dirs = 0 ↔ ivRun files = [] ∧ layerStructureValidate dirs = []) := by
  refine ⟨by decide, fun files dirs => by simp [mainExit], fun files dirs => ?_⟩
  by_cases hv : ivRun files = [] <;> by_cases hs : layerStructureValidate dirs = [] <;>
    simp [mainExit, hv, hs, List.isEmpty_iff]

/-- C8 counterexample: domain/test_api.py has the test marker token in its
path, yet the Layer Content checker classifies it into the domain layer and
reports the forbidden token api — refuting that every checker skips files
whose path contains the test marker. -/
theorem test_file_skip_counterexample :
    strContains "domain/test_api.py" "test" = true ∧
    lcValidateFile ["domain", "test_api.py"] "domain/test_api.py" "test_api.py" "test_api" =
      [⟨"domain/test_api.py", "test_api.py", "api", "domain"⟩] := by decide

/-- C8 amended: the dependency-rule, naming, encapsulation and use-case-triad
checkers all skip a file whose path contains the test marker token entirely;
the layer-content checker alone has no such skip and classifies and reports
test files like any other. -/
theorem test_file_skip_amended (pathStr relPath stem : String) (relParts : List String)
    (ok : Bool) (refs : List (List String)) (classNames funcNames assignNames : List String)
    (classes : List PyClassDef) (declared : List String)
    (h : strContains pathStr "test" = true) :
    ivValidateFile pathStr relPath relParts ok refs = [] ∧
    nvValidateFile pathStr ok classNames funcNames assignNames = [] ∧
    encValidateFile pathStr ok classes = [] ∧
    ucValidateFile pathStr stem ok declared = [] := by
  refine ⟨?_, ?_, ?_, ?_⟩
  · simp [ivValidateFile, h]
  · simp [nvValidateFile, h]
  · unfold encValidateFile
    by_cases hg : !(strContains pathStr "domain") && !(strContains pathStr "application")
    · simp [hg]
    · simp [hg, h]
  · unfold ucValidateFile
    by_cases hg : !(strContains pathStr "application") || !(strContains (lowerStr stem) "use_case")
    · simp [hg]
    · simp [hg, h]

/-- C8 amended witness: the four checkers with a test-path skip all produce
nothing for application/domain test files that would otherwise be reported. -/
theorem test_file_skip_amended_witness :
    ivValidateFile "domain/test_task.py" "domain/test_task.py" ["domain", "test_task.py"]
        true [["infrastructure", "db"]] = [] ∧
    nvValidateFile "domain/test_task.py" true ["bad_name"] ["BadName"] ["bad_const"] = [] ∧
    encValidateFile "domain/test_task.py" true
      [⟨"Task", [], [], [PyClassItem.annAssignName "value"]⟩] = [] ∧
    ucValidateFile "domain/test_task.py" "test_task_use_case" true ["DeleteTaskUseCase"] = [] :=
  test_file_skip_amended "domain/test_task.py" "domain/test_task.py" "test_task_use_case"
    ["domain", "test_task.py"] true [["infrastructure", "db"]] ["bad_name"] ["BadName"]
    ["bad_const"] [⟨"Task", [], [], [PyClassItem.annAssignName "value"]⟩] ["DeleteTaskUseCase"]
    (by decide)

lemma encCheckPropertyUsage_no_issue (pathStr : String) (classes : List PyClassDef) :
    encCheckPropertyUsage pathStr classes = .ok [] ∨
    encCheckPropertyUsage pathStr classes = .error [] := by
  induction classes with
  | nil => exact Or.inl rfl
  | cons c rest ih =>
    unfold encCheckPropertyUsage
    by_cases hc : hasPrivateAttrs c && !(hasPropertyDecorator c)
    · simp only [hc, if_true, pathLowerAttr]
      exact Or.inr trivial
    · simp only [hc, if_false]
      exact ih

lemma encIssuesOf_propertyUsage (pathStr : String) (classes : List PyClassDef) :
    encIssuesOf (encCheckPropertyUsage pathStr classes) = [] := by
  rcases encCheckPropertyUsage_no_issue pathStr classes with h | h <;> simp [h, encIssuesOf]

/-- C9: an exempt class (dataclass decorator or Protocol/BaseModel base) is
skipped entirely by the Encapsulation Checker: the public-attribute check
contributes nothing for it, and the property-usage check contributes nothing
for any class of the file (its path test raises an AttributeError that is
swallowed before any issue can be appended). -/
theorem exempt_class_skipped (pathStr : String) (c : PyClassDef) (classes : List PyClassDef)
    (h : isProtocolOrDataclass c = true) :
    encPublicAttrsForClass pathStr c = [] ∧
    encIssuesOf (encCheckPropertyUsage pathStr classes) = [] := by
  constructor
  · simp [encPublicAttrsForClass, h]
  · exact encIssuesOf_propertyUsage pathStr classes

/-- C9 witness: a dataclass-decorated class with a public annotated attribute
and a private-assigning initializer gets no issue from either check in an
entity file of the domain layer. -/
theorem exempt_class_skipped_witness :
    encPublicAttrsForClass "domain/entities/task_entity.py"
      ⟨"Task", [], [PyExpr.name "dataclass"],
        [PyClassItem.annAssignName "value",
         PyClassItem.funcDef ⟨"__init__", [], ["_id"]⟩]⟩ = [] ∧
    encIssuesOf (encCheckPropertyUsage "domain/entities/task_entity.py"
      [⟨"Task", [], [PyExpr.name "dataclass"],
        [PyClassItem.annAssignName "value",
         PyClassItem.funcDef ⟨"__init__", [], ["_id"]⟩]⟩]) = [] :=
  exempt_class_skipped "domain/entities/task_entity.py"
    ⟨"Task", [], [PyExpr.name "dataclass"],
      [PyClassItem.annAssignName "value", PyClassItem.funcDef ⟨"__init__", [], ["_id"]⟩]⟩
    [⟨"Task", [], [PyExpr.name "dataclass"],
      [PyClassItem.annAssignName "value", PyClassItem.funcDef ⟨"__init__", [], ["_id"]⟩]⟩]
    (by decide)

lemma nodup_filter_eq_length_le_one {α : Type} [DecidableEq α] (l : List α) (p : α)
    (hl : l.Nodup) : (l.filter (fun q => decide (q = p))).length ≤ 1 := by
  induction l with
  | nil => simp
  | cons a rest ih =>
    rcases List.nodup_cons.mp hl with ⟨ha, hrest⟩
    by_cases hap : a = p
    · subst hap
      have hf : rest.filter (fun q => decide (q = a)) = [] := by
        rw [List.filter_eq_nil_iff]
        intro b hb
        simp only [decide_eq_true_eq]
        intro hba
        exact ha (hba ▸ hb)
      simp [List.filter_cons, hf]
    · simp only [List.filter_cons, hap, decide_eq_true_eq, if_false]
      exact ih hrest

/-- C10: per file, the Dependency Rule Checker produces at most one violation
per distinct imported module path: the imports extracted into a set are
duplicate-free, so the checks arising from occurrences of any one module path
p in the extracted imports yield at most one violation. -/
theorem one_violation_per_module (refs : List (List String)) (p : List String)
    (relPath : String) (fileLayer : Nat) :
    (((extractImports refs).filter (fun q => decide (q = p))).filterMap
      (checkImport relPath fileLayer)).length ≤ 1 := by
  have hnd : (extractImports refs).Nodup := List.nodup_dedup refs
  calc (((extractImports refs).filter (fun q => decide (q = p))).filterMap
          (checkImport relPath fileLayer)).length
      ≤ ((extractImports refs).filter (fun q => decide (q = p))).length :=
        List.length_filterMap_le _ _
    _ ≤ 1 := nodup_filter_eq_length_le_one (extractImports refs) p hnd
